import Mathlib

/-!
Shallow embedding of the TRAXOVO status-dashboard application
(`src/main.py`) and of the isolated authorization fragment
(`watson/security_layer_patch.py`).

External effects are made explicit parameters:
* the feed file on disk is an `Option (Except String Json)` — `none` when
  the file is absent, `some (.error e)` when opening or `json.load`
  raises with message `e`, `some (.ok v)` when it parses to `v`;
* an outbound HTTP call is an `Except String HttpResponse` — `.error e`
  for a transport exception with message `e`, `.ok r` for a response;
* the process environment is a function `String → Option String`
  (`os.getenv`).
-/

namespace Traxovo

/-- JSON values as produced by Python's `json` module: the feed file's
content, HTTP response bodies, and the dict literals the application
builds are all values of this type. -/
inductive Json where
  | null
  | bool (b : Bool)
  | num (n : Int)
  | str (s : String)
  | arr (items : List Json)
  | obj (fields : List (String × Json))

/-- Lookup in an association list of JSON object fields (Python dict
indexing / key membership). -/
def lookupField : List (String × Json) → String → Option Json
  | [], _ => none
  | (k, v) :: rest, key => if k = key then some v else lookupField rest key

/-- Field access on a JSON value: `some v` when the value is an object
with the key, `none` otherwise. -/
def Json.getField : Json → String → Option Json
  | .obj fields, key => lookupField fields key
  | _, _ => none

/-- Whether a JSON value is a list (Python `isinstance(data, list)`). -/
def Json.isArr : Json → Bool
  | .arr _ => true
  | _ => false

/-- An HTTP response as the `requests` library exposes it to this code:
the status code, the raw text, and the outcome of `response.json()`
(`.error e` when decoding the body raises with message `e`). -/
structure HttpResponse where
  status_code : Nat
  text : String
  json_body : Except String Json

/-- Python truthiness of `os.getenv`'s result: `None` and the empty
string are falsy, any other string is truthy. -/
def truthy : Option String → Bool
  | none => false
  | some s => s ≠ ""

/-- TRAXOVOCore.load_gauge_data (src/main.py lines 39-50): reads the
fixed-named feed file; on a parsed value returns
`{status: "connected", records: len(data) if isinstance(data, list) else 0, data: data}`;
when the file is absent, or opening/parsing raises (caught by the bare
`except`), returns `{status: "disconnected", records: 0, data: {}}`. -/
def load_gauge_data (gauge_file : Option (Except String Json)) : Json :=
  match gauge_file with
  | some (Except.ok data) =>
      Json.obj [("status", Json.str "connected"),
                ("records", Json.num (match data with
                                      | Json.arr items => items.length
                                      | _ => 0)),
                ("data", data)]
  | _ =>
      Json.obj [("status", Json.str "disconnected"),
                ("records", Json.num 0),
                ("data", Json.obj [])]

/-- TRAXOVOCore.test_gnis_connection (src/main.py lines 52-62): one GET
to `{GNIS_BASE_URL}/api/kaizen/status`; HTTP 200 maps to
`{status: "connected", endpoint: base}`, any other code to
`{status: "error", code}`, and a transport exception (caught by the bare
`except`) to `{status: "offline", fallback: "local-mode"}`. -/
def test_gnis_connection (gnis_base_url : String)
    (resp : Except String HttpResponse) : Json :=
  match resp with
  | Except.ok r =>
      if r.status_code = 200 then
        Json.obj [("status", Json.str "connected"),
                  ("endpoint", Json.str gnis_base_url)]
      else
        Json.obj [("status", Json.str "error"),
                  ("code", Json.num r.status_code)]
  | Except.error _ =>
      Json.obj [("status", Json.str "offline"),
                ("fallback", Json.str "local-mode")]

/-- TRAXOVOCore.initialize_watson_api (src/main.py lines 64-69):
`watson_key = os.getenv('WATSON_API_KEY'); if watson_key: ...` — the
truthiness test, so an unset variable and one set to the empty string
both take the `requires_config` branch. -/
def initialize_watson_api (watson_key : Option String) : Json :=
  if truthy watson_key then
    Json.obj [("status", Json.str "configured"),
              ("services", Json.arr [Json.str "nlp", Json.str "vision",
                                     Json.str "speech"])]
  else
    Json.obj [("status", Json.str "requires_config"),
              ("services", Json.arr [])]

/-- TRAXOVOCore.discover_external_apis (src/main.py lines 71-83): checks
truthiness of three fixed environment variables and returns the count
and the entries of those present. -/
def discover_external_apis (env : String → Option String) : Json :=
  let apis : List Json :=
    (if truthy (env "OPENAI_API_KEY") then
      [Json.obj [("name", Json.str "OpenAI"), ("status", Json.str "configured")]]
     else []) ++
    (if truthy (env "ANTHROPIC_API_KEY") then
      [Json.obj [("name", Json.str "Anthropic"), ("status", Json.str "configured")]]
     else []) ++
    (if truthy (env "GOOGLE_API_KEY") then
      [Json.obj [("name", Json.str "Google"), ("status", Json.str "configured")]]
     else [])
  Json.obj [("count", Json.num apis.length), ("apis", Json.arr apis)]

/-- The payload TRAXOVOCore.create_gpt_action builds (src/main.py lines
87-97): `goal_id` is the timestamp-derived id
`gpt_action_{datetime.now().strftime(...)}` and `timestamp` the
isoformat string, both inputs here since they come from the clock. -/
def gpt_action_payload (version goal_id timestamp : String)
    (action_data : Json) : Json :=
  Json.obj [("event_type", Json.str "assistant_create_action"),
            ("goal_id", Json.str goal_id),
            ("metadata", Json.obj [("platform", Json.str "TRAXOVO"),
                                   ("version", Json.str version),
                                   ("action_data", action_data),
                                   ("timestamp", Json.str timestamp)])]

/-- TRAXOVOCore.create_gpt_action (src/main.py lines 85-113): POSTs the
payload to the relay; on HTTP 200 returns
`{status: "success", goal_id: payload["goal_id"], response: response.json()}` —
`response.json()` is evaluated inside the same `try`, so a body that
fails to decode raises there and the bare `except` returns
`{status: "failed", error: str(e)}`; any other status code returns
`{status: "error", code, message: response.text}`; a transport
exception also returns the `failed` record. -/
def create_gpt_action (version goal_id timestamp : String)
    (action_data : Json) (resp : Except String HttpResponse) : Json :=
  let payload := gpt_action_payload version goal_id timestamp action_data
  match resp with
  | Except.ok r =>
      if r.status_code = 200 then
        match r.json_body with
        | Except.ok body =>
            Json.obj [("status", Json.str "success"),
                      ("goal_id", (payload.getField "goal_id").getD Json.null),
                      ("response", body)]
        | Except.error e =>
            Json.obj [("status", Json.str "failed"), ("error", Json.str e)]
      else
        Json.obj [("status", Json.str "error"),
                  ("code", Json.num r.status_code),
                  ("message", Json.str r.text)]
  | Except.error e =>
      Json.obj [("status", Json.str "failed"), ("error", Json.str e)]

/-- The external dependency outcomes TRAXOVOCore.__init__ observes. -/
structure Env where
  gauge_file : Option (Except String Json)
  gnis_resp : Except String HttpResponse
  env_vars : String → Option String

/-- The aggregator instance: TRAXOVOCore (src/main.py lines 27-37). -/
structure TRAXOVOCore where
  version : String
  status : String
  apis : List (String × Json)

/-- TRAXOVOCore.__init__ (src/main.py lines 28-37): captures the status
snapshot from the four dependency probes, once, at construction. -/
def TRAXOVOCore.make (e : Env) (gnis_base_url : String) : TRAXOVOCore :=
  { version := "Omega.2.0-MPA",
    status := "OPERATIONAL",
    apis := [("gauge", load_gauge_data e.gauge_file),
             ("gnis", test_gnis_connection gnis_base_url e.gnis_resp),
             ("watson", initialize_watson_api (e.env_vars "WATSON_API_KEY")),
             ("external", discover_external_apis e.env_vars)] }

/-- Snapshot lookup `traxovo.apis[key]` used by the route handlers. -/
def TRAXOVOCore.api (t : TRAXOVOCore) (key : String) : Json :=
  (lookupField t.apis key).getD Json.null

/-- An HTTP response of the web application: status code and JSON body
(for the template routes, the context dict passed to the template). -/
abbrev RouteResponse := Nat × Json

/-- Every route handler is modelled as a state transformer on the
aggregator instance, returning its response together with the instance
it leaves behind; the Python handlers contain no assignment to
`traxovo` or its fields, so each returns the instance it received. -/
abbrev Handler := TRAXOVOCore → RouteResponse × TRAXOVOCore

/-- Route `/` (src/main.py lines 118-123): renders the dashboard with
`system_status=traxovo.apis` and `version=traxovo.version`. -/
def dashboard : Handler := fun t =>
  ((200, Json.obj [("system_status", Json.obj t.apis),
                   ("version", Json.str t.version)]), t)

/-- Route `/apis` (src/main.py lines 125-130): renders the API
management page with the apis mapping and the external count. -/
def api_management : Handler := fun t =>
  ((200, Json.obj [("apis", Json.obj t.apis),
                   ("external_count",
                    ((t.api "external").getField "count").getD Json.null)]), t)

/-- Route `/gpt-actions` (src/main.py lines 132-135): renders a page
with no context. -/
def gpt_actions : Handler := fun t => ((200, Json.obj []), t)

/-- Route `/data-processing` (src/main.py lines 137-143): renders the
page with `traxovo.apis['gauge']['data']` and its record count. -/
def data_processing : Handler := fun t =>
  ((200, Json.obj [("gauge_data", ((t.api "gauge").getField "data").getD Json.null),
                   ("record_count",
                    ((t.api "gauge").getField "records").getD Json.null)]), t)

/-- Route `/integrations` (src/main.py lines 145-149): renders the page
with `traxovo.apis['external']['apis']`. -/
def integrations : Handler := fun t =>
  ((200, Json.obj [("integrations",
                    ((t.api "external").getField "apis").getD Json.null)]), t)

/-- Route `GET /api/system/status` (src/main.py lines 152-161):
`jsonify` of the platform banner, version, status, current timestamp and
the whole apis snapshot; Flask's default status code 200. -/
def api_system_status (timestamp : String) : Handler := fun t =>
  ((200, Json.obj [("platform", Json.str "TRAXOVO Watson Intelligence"),
                   ("version", Json.str t.version),
                   ("status", Json.str t.status),
                   ("timestamp", Json.str timestamp),
                   ("apis", Json.obj t.apis)]), t)

/-- Route `POST /api/gpt/create-action` (src/main.py lines 163-171):
`request.get_json()` may raise (its outcome is `body_json`); a raise is
caught and answered with status 500; otherwise the parsed body is
forwarded through `create_gpt_action` and its result jsonified with
status 200. -/
def api_create_gpt_action (body_json : Except String Json)
    (goal_id timestamp : String) (relay : Except String HttpResponse) :
    Handler := fun t =>
  match body_json with
  | Except.ok action_data =>
      ((200, create_gpt_action t.version goal_id timestamp action_data relay), t)
  | Except.error e =>
      ((500, Json.obj [("status", Json.str "error"),
                       ("message", Json.str e)]), t)

/-- Route `GET /api/gauge/data` (src/main.py lines 173-176): jsonifies
the gauge entry of the snapshot. -/
def api_gauge_data : Handler := fun t => ((200, t.api "gauge"), t)

/-- Route `POST /api/gnis/sync` (src/main.py lines 178-187): same shape
as the create-action route, forwarding the parsed body through
`create_gpt_action`. -/
def api_gnis_sync (body_json : Except String Json)
    (goal_id timestamp : String) (relay : Except String HttpResponse) :
    Handler := fun t =>
  match body_json with
  | Except.ok sync_data =>
      ((200, create_gpt_action t.version goal_id timestamp sync_data relay), t)
  | Except.error e =>
      ((500, Json.obj [("status", Json.str "error"),
                       ("message", Json.str e)]), t)

/-- watson_auth_gate (watson/security_layer_patch.py lines 3-7): the
external decision function `bypass_for_agent` (imported from
`auth.gatekeeper_bypass`, not part of this repository) is a parameter;
`Except.error` models the raised `PermissionError`, `Except.ok` the
normal return after the print. -/
def watson_auth_gate (bypass_for_agent : String → Bool)
    (agent_id : String) : Except String Unit :=
  if !bypass_for_agent agent_id then
    Except.error ("Access denied for agent: " ++ agent_id)
  else
    Except.ok ()

/-- Whether a call raised (`Except.error`), i.e. a `PermissionError`
escaped `watson_auth_gate`. -/
def raisesError : Except String Unit → Bool
  | Except.error _ => true
  | Except.ok _ => false

/-- C4: if the feed file exists and parses as a JSON sequence of N
items, `load_gauge_data` returns status `connected`, `records = N`, and
`data` equal to the parsed content. -/
theorem load_gauge_data_list_connected (items : List Json) :
    load_gauge_data (some (Except.ok (Json.arr items))) =
      Json.obj [("status", Json.str "connected"),
                ("records", Json.num items.length),
                ("data", Json.arr items)] := rfl

/-- C5: if the feed file is absent, or present but its contents fail to
parse (any exception message), `load_gauge_data` returns
`{status: "disconnected", records: 0, data: {}}`; both branches return
a value, so no exception escapes. -/
theorem load_gauge_data_failure_disconnected :
    (load_gauge_data none =
      Json.obj [("status", Json.str "disconnected"),
                ("records", Json.num 0), ("data", Json.obj [])]) ∧
    (∀ e : String, load_gauge_data (some (Except.error e)) =
      Json.obj [("status", Json.str "disconnected"),
                ("records", Json.num 0), ("data", Json.obj [])]) :=
  ⟨rfl, fun _ => rfl⟩

/-- C10: if the feed file parses as JSON whose top-level value is not a
list, `load_gauge_data` still returns status `connected`, with
`records = 0` and `data` equal to the parsed non-list value. -/
theorem load_gauge_data_nonlist_connected (data : Json)
    (h : data.isArr = false) :
    load_gauge_data (some (Except.ok data)) =
      Json.obj [("status", Json.str "connected"),
                ("records", Json.num 0), ("data", data)] := by
  cases data <;> first
    | rfl
    | simp [Json.isArr] at h

/-- Witness for C10 at a concrete non-list value (an empty object). -/
theorem load_gauge_data_nonlist_connected_witness :
    load_gauge_data (some (Except.ok (Json.obj []))) =
      Json.obj [("status", Json.str "connected"),
                ("records", Json.num 0), ("data", Json.obj [])] :=
  load_gauge_data_nonlist_connected (Json.obj []) rfl

/-- C3: `test_gnis_connection` maps HTTP 200 to a `connected` record,
any other status code to `{status: "error", code}`, and every transport
failure to `{status: "offline", fallback: "local-mode"}`; each branch
returns a value, so no exception escapes. -/
theorem test_gnis_connection_cases (gnis_base_url : String) :
    (∀ txt jb, test_gnis_connection gnis_base_url
        (Except.ok ⟨200, txt, jb⟩) =
      Json.obj [("status", Json.str "connected"),
                ("endpoint", Json.str gnis_base_url)]) ∧
    (∀ code txt jb, code ≠ 200 → test_gnis_connection gnis_base_url
        (Except.ok ⟨code, txt, jb⟩) =
      Json.obj [("status", Json.str "error"), ("code", Json.num code)]) ∧
    (∀ e, test_gnis_connection gnis_base_url (Except.error e) =
      Json.obj [("status", Json.str "offline"),
                ("fallback", Json.str "local-mode")]) := by
  refine ⟨fun _ _ => rfl, fun code txt jb h => ?_, fun _ => rfl⟩
  simp [test_gnis_connection, h]

/-- Witness for C3 at a concrete non-200 response. -/
theorem test_gnis_connection_cases_witness :
    test_gnis_connection "https://gnis-replicator.replit.app"
        (Except.ok ⟨503, "busy", Except.error "no body"⟩) =
      Json.obj [("status", Json.str "error"), ("code", Json.num 503)] :=
  (test_gnis_connection_cases "https://gnis-replicator.replit.app").2.1
    503 "busy" (Except.error "no body") (by decide)

/-- C2 counterexample: the relay answers HTTP 200 but its body does not
decode as JSON; `create_gpt_action` returns the catch-all
`{status: "failed", error}` record, not the remote response body, so the
claim as stated is false at this input. -/
theorem create_gpt_action_http200_counterexample :
    create_gpt_action "Omega.2.0-MPA" "gpt_action_20250515_104500"
        "2025-05-15T10:45:00" Json.null
        (Except.ok ⟨200, "<html>not json</html>", Except.error "Expecting value"⟩) =
      Json.obj [("status", Json.str "failed"),
                ("error", Json.str "Expecting value")] := rfl

/-- C2 amended: when the relay answers HTTP 200 and its body decodes,
`create_gpt_action` returns a success record carrying the goal id and
the decoded remote response body; when the relay answers HTTP 200 but
the body fails to decode, the decode exception is caught like a
transport exception yielding `{status: "failed", error}`; any other
status code yields `{status: "error", code, message: response text}`;
any transport exception yields `{status: "failed", error: message}`,
and every branch returns a value instead of raising. -/
theorem create_gpt_action_cases (version goal_id timestamp : String)
    (action_data : Json) :
    (∀ txt body, create_gpt_action version goal_id timestamp action_data
        (Except.ok ⟨200, txt, Except.ok body⟩) =
      Json.obj [("status", Json.str "success"),
                ("goal_id", Json.str goal_id), ("response", body)]) ∧
    (∀ txt e, create_gpt_action version goal_id timestamp action_data
        (Except.ok ⟨200, txt, Except.error e⟩) =
      Json.obj [("status", Json.str "failed"), ("error", Json.str e)]) ∧
    (∀ code txt jb, code ≠ 200 →
      create_gpt_action version goal_id timestamp action_data
        (Except.ok ⟨code, txt, jb⟩) =
      Json.obj [("status", Json.str "error"), ("code", Json.num code),
                ("message", Json.str txt)]) ∧
    (∀ e, create_gpt_action version goal_id timestamp action_data
        (Except.error e) =
      Json.obj [("status", Json.str "failed"), ("error", Json.str e)]) := by
  refine ⟨fun _ _ => rfl, fun _ _ => rfl, fun code txt jb h => ?_, fun _ => rfl⟩
  simp [create_gpt_action, h]

/-- Witness for C2 (amended) at a concrete 404 response. -/
theorem create_gpt_action_cases_witness :
    create_gpt_action "Omega.2.0-MPA" "gpt_action_x" "ts" Json.null
        (Except.ok ⟨404, "not found", Except.error "no body"⟩) =
      Json.obj [("status", Json.str "error"), ("code", Json.num 404),
                ("message", Json.str "not found")] :=
  (create_gpt_action_cases "Omega.2.0-MPA" "gpt_action_x" "ts" Json.null).2.2.1
    404 "not found" (Except.error "no body") (by decide)

/-- C9: a relay response with HTTP status 200 whose body does not parse
as JSON makes `create_gpt_action` return the catch-all failed record
(decoding happens inside the same try block), never a success record. -/
theorem create_gpt_action_decode_failure (version goal_id timestamp : String)
    (action_data : Json) (txt e : String) :
    create_gpt_action version goal_id timestamp action_data
        (Except.ok ⟨200, txt, Except.error e⟩) =
      Json.obj [("status", Json.str "failed"), ("error", Json.str e)] := rfl

/-- C7 counterexample: WATSON_API_KEY present in the environment but set
to the empty string (`os.getenv` returns `""`, which is falsy); the
claim says presence alone yields `configured`, yet the code returns
`requires_config`. -/
theorem initialize_watson_api_empty_key_counterexample :
    (Option.isSome (some "") = true) ∧
    initialize_watson_api (some "") =
      Json.obj [("status", Json.str "requires_config"),
                ("services", Json.arr [])] := by
  refine ⟨rfl, ?_⟩
  simp [initialize_watson_api, truthy]

/-- C7 amended: `initialize_watson_api` is a pure lookup of the given
environment value; it reports `configured` exactly when WATSON_API_KEY
is set to a non-empty string, and `requires_config` exactly when the
variable is unset or set to the empty string. -/
theorem initialize_watson_api_spec (watson_key : Option String) :
    ((initialize_watson_api watson_key).getField "status" =
        some (Json.str "configured") ↔
      ∃ s, watson_key = some s ∧ s ≠ "") ∧
    ((initialize_watson_api watson_key).getField "status" =
        some (Json.str "requires_config") ↔
      (watson_key = none ∨ watson_key = some "")) := by
  cases watson_key with
  | none =>
      simp [initialize_watson_api, truthy, Json.getField, lookupField]
  | some s =>
      by_cases h : s = "" <;>
        simp [initialize_watson_api, truthy, h, Json.getField, lookupField]

/-- C8: `watson_auth_gate` raises a `PermissionError` exactly when the
external decision function `bypass_for_agent` returns false on the
agent id; when it returns true the gate returns normally. -/
theorem watson_auth_gate_raises_iff (bypass_for_agent : String → Bool)
    (agent_id : String) :
    (raisesError (watson_auth_gate bypass_for_agent agent_id) = true ↔
      bypass_for_agent agent_id = false) ∧
    (raisesError (watson_auth_gate bypass_for_agent agent_id) = false ↔
      watson_auth_gate bypass_for_agent agent_id = Except.ok ()) := by
  cases h : bypass_for_agent agent_id <;>
    simp [watson_auth_gate, raisesError, h]

/-- C1: for every combination of dependency outcomes, the system-status
route answers with HTTP 200 and a JSON body whose `apis` object holds
all four keys `gauge`, `gnis`, `watson` and `external`. -/
theorem api_system_status_always_complete (e : Env)
    (gnis_base_url timestamp : String) :
    ((api_system_status timestamp (TRAXOVOCore.make e gnis_base_url)).1.1
        = 200) ∧
    ∃ a, ((api_system_status timestamp
            (TRAXOVOCore.make e gnis_base_url)).1.2).getField "apis"
          = some a ∧
      (a.getField "gauge").isSome = true ∧
      (a.getField "gnis").isSome = true ∧
      (a.getField "watson").isSome = true ∧
      (a.getField "external").isSome = true :=
  ⟨rfl, Json.obj (TRAXOVOCore.make e gnis_base_url).apis,
    rfl, rfl, rfl, rfl, rfl⟩

/-- C6: every route handler, the two POST forwarding routes included,
leaves the aggregator instance (and with it the `apis` snapshot,
`version` and `status`) exactly as it found it. -/
theorem handlers_preserve_snapshot (t : TRAXOVOCore)
    (timestamp goal_id : String) (body_json : Except String Json)
    (relay : Except String HttpResponse) :
    ((dashboard t).2 = t) ∧
    ((api_management t).2 = t) ∧
    ((gpt_actions t).2 = t) ∧
    ((data_processing t).2 = t) ∧
    ((integrations t).2 = t) ∧
    ((api_system_status timestamp t).2 = t) ∧
    ((api_create_gpt_action body_json goal_id timestamp relay t).2 = t) ∧
    ((api_gauge_data t).2 = t) ∧
    ((api_gnis_sync body_json goal_id timestamp relay t).2 = t) := by
  cases body_json <;>
    simp [dashboard, api_management, gpt_actions, data_processing,
          integrations, api_system_status, api_create_gpt_action,
          api_gauge_data, api_gnis_sync]

end Traxovo
